import Mathlib

/-
  Verification development for the plana-core configuration/state
  synchronization layer.

  The Python source is shallowly embedded: pydantic models become Lean
  structures (fields not read by any theorem below are elided), Python
  dicts become association lists, Python sets become duplicate-free lists,
  the remote backend becomes an explicit oracle record (the spec treats it
  as an external collaborator with a contract only), and each await of a
  network call is an explicit suspension point.  Code that can raise is
  modelled in Except PyErr.
-/

namespace Plana

/-- Python exception classes that the embedded code can raise. -/
inductive PyErr where
  | attributeError
  | typeError
  deriving DecidableEq, Repr

/-- Record of one HTTP request issued against the backend REST store. -/
structure ApiCall where
  method : String
  url : String
  deriving DecidableEq, Repr

/-- URL of a guild-scoped backend resource, as built by the model classes. -/
def guildUrl (gid : Nat) (res : String) : String :=
  "/guilds/" ++ toString gid ++ "/" ++ res

/-- Association-list embedding of a Python dict. -/
abbrev Dict (κ α : Type) := List (κ × α)

/-- Lookup in a dict (Python `d[k]` / `k in d`). -/
def Dict.get {κ α : Type} [DecidableEq κ] : Dict κ α → κ → Option α
  | [], _ => none
  | p :: r, k => if p.1 = k then some p.2 else Dict.get r k

/-- Assignment in a dict (Python `d[k] = v`): replace the existing binding
or append a new one. -/
def Dict.set {κ α : Type} [DecidableEq κ] : Dict κ α → κ → α → Dict κ α
  | [], k, v => [(k, v)]
  | p :: r, k, v => if p.1 = k then (k, v) :: r else p :: Dict.set r k v

/-- Python `set.add`: duplicate-free list embedding of a set. -/
def setAdd {κ : Type} [DecidableEq κ] (s : List κ) (k : κ) : List κ :=
  if s.any (fun x => decide (x = k)) then s else s ++ [k]

/-- Python `set.discard`. -/
def setDiscard {κ : Type} [DecidableEq κ] (s : List κ) (k : κ) : List κ :=
  s.filter (fun x => decide (x ≠ k))

/-- Truthiness of an Optional[bool] Python value. -/
def truthy : Option Bool → Bool
  | none => false
  | some b => b

/-- Writing into a dict makes the written binding the one later reads see. -/
theorem Dict.get_set {κ α : Type} [DecidableEq κ] (d : Dict κ α) (k : κ) (v : α) :
    Dict.get (Dict.set d k v) k = some v := by
  induction d with
  | nil => simp [Dict.set, Dict.get]
  | cons p r ih =>
      by_cases h : p.1 = k
      · simp [Dict.set, Dict.get, h]
      · simp [Dict.set, Dict.get, h, ih]

/-! ## Guild sub-config models (src/plana/models)

Each structure keeps the source field defaults; fields never read by a
theorem in this file are elided. -/

/-- Guild preferences (plana.models.guild.GuildPreference). -/
structure GuildPreference where
  id : Option Nat := none
  enabled : Option Bool := none
  language : Option String := none
  timezone : Option String := none
  deriving DecidableEq, Repr

/-- Level system configuration (plana.models.levels.LevelSetting);
source default for enabled is False. -/
structure LevelSetting where
  id : Option Nat := none
  enabled : Option Bool := some false
  xp_per_message : Option Nat := some 15
  xp_cooldown : Option Nat := some 5
  deriving DecidableEq, Repr

/-- Welcome system configuration (plana.models.welcome.WelcomeSetting). -/
structure WelcomeSetting where
  id : Option Nat := none
  enabled : Option Bool := some false
  welcome_channel_id : Option Nat := none
  deriving DecidableEq, Repr

/-- Achievement configuration (plana.models.achievements.AchievementSetting). -/
structure AchievementSetting where
  id : Option Nat := none
  enabled : Option Bool := some false
  deriving DecidableEq, Repr

/-- AI configuration (plana.models.ai.AISetting); source default for
enabled is True. -/
structure AISetting where
  id : Option Nat := none
  enabled : Option Bool := some true
  stream : Option Bool := some false
  deriving DecidableEq, Repr

/-- React-role configuration entry (plana.models.react_role.ReactRoleSetting). -/
structure ReactRoleSetting where
  id : Option Nat := none
  guild_id : Option Nat := none
  enabled : Option Bool := some true
  deriving DecidableEq, Repr

/-- RSS feed configuration entry (plana.models.rss.RssFeed). -/
structure RssFeed where
  id : Option Nat := none
  guild_id : Option Nat := none
  url : Option String := none
  enabled : Bool := true
  deriving DecidableEq, Repr

/-- Oracle for the backend REST store endpoints used by the guild
sub-config models.  A `none` result models the empty/falsy body that
make_request returns both for a missing entity and after a request error. -/
structure Backend where
  prefGet : Nat → Option GuildPreference
  prefCreate : Nat → Option GuildPreference
  levelsGet : Nat → Option LevelSetting
  levelsCreate : Nat → Option LevelSetting
  welcomeGet : Nat → Option WelcomeSetting
  welcomeCreate : Nat → Option WelcomeSetting
  achGet : Nat → Option AchievementSetting
  achCreate : Nat → Option AchievementSetting
  aiGet : Nat → Option AISetting
  aiCreate : Nat → Option AISetting
  reactRolesGetAll : Nat → Option (List ReactRoleSetting)
  rssGetAll : Nat → Option (List RssFeed)

/-- GuildPreference.get: GET, and on a falsy body fall back to a POST
create, returning whatever the create returned. -/
def GuildPreference.get (b : Backend) (gid : Nat) :
    Option GuildPreference × List ApiCall :=
  match b.prefGet gid with
  | some p => (some p, [⟨"GET", guildUrl gid "preferences"⟩])
  | none =>
      (b.prefCreate gid,
        [⟨"GET", guildUrl gid "preferences"⟩, ⟨"POST", guildUrl gid "preferences"⟩])

/-- LevelSetting.get with its create fallback. -/
def LevelSetting.get (b : Backend) (gid : Nat) :
    Option LevelSetting × List ApiCall :=
  match b.levelsGet gid with
  | some p => (some p, [⟨"GET", guildUrl gid "levels"⟩])
  | none =>
      (b.levelsCreate gid,
        [⟨"GET", guildUrl gid "levels"⟩, ⟨"POST", guildUrl gid "levels"⟩])

/-- WelcomeSetting.get with its create fallback. -/
def WelcomeSetting.get (b : Backend) (gid : Nat) :
    Option WelcomeSetting × List ApiCall :=
  match b.welcomeGet gid with
  | some p => (some p, [⟨"GET", guildUrl gid "welcome"⟩])
  | none =>
      (b.welcomeCreate gid,
        [⟨"GET", guildUrl gid "welcome"⟩, ⟨"POST", guildUrl gid "welcome"⟩])

/-- AchievementSetting.get with its create fallback. -/
def AchievementSetting.get (b : Backend) (gid : Nat) :
    Option AchievementSetting × List ApiCall :=
  match b.achGet gid with
  | some p => (some p, [⟨"GET", guildUrl gid "achievements"⟩])
  | none =>
      (b.achCreate gid,
        [⟨"GET", guildUrl gid "achievements"⟩, ⟨"POST", guildUrl gid "achievements"⟩])

/-- AISetting.get with its create fallback. -/
def AISetting.get (b : Backend) (gid : Nat) :
    Option AISetting × List ApiCall :=
  match b.aiGet gid with
  | some p => (some p, [⟨"GET", guildUrl gid "ai"⟩])
  | none =>
      (b.aiCreate gid, [⟨"GET", guildUrl gid "ai"⟩, ⟨"POST", guildUrl gid "ai"⟩])

/-- ReactRoleSetting.get_all: a single GET; a falsy body yields the empty
list, with no create fallback. -/
def ReactRoleSetting.get_all (b : Backend) (gid : Nat) :
    List ReactRoleSetting × List ApiCall :=
  ((b.reactRolesGetAll gid).getD [], [⟨"GET", guildUrl gid "react-roles"⟩])

/-- RssFeed.get_all: a single GET; a falsy body yields the empty list. -/
def RssFeed.get_all (b : Backend) (gid : Nat) :
    List RssFeed × List ApiCall :=
  ((b.rssGetAll gid).getD [], [⟨"GET", guildUrl gid "rss"⟩])

/-- Composite of the per-guild sub-configs
(plana.services.manager.GuildSettings). -/
structure GuildSettings where
  id : Option Nat := none
  preferences : Option GuildPreference := none
  react_roles : Option (List ReactRoleSetting) := none
  levels : Option LevelSetting := none
  welcome : Option WelcomeSetting := none
  rss_feeds : List RssFeed := []
  achievements : Option AchievementSetting := none
  ai : Option AISetting := none
  deriving DecidableEq, Repr

/-- GuildSettings.get: fetch every sub-config individually and assemble the
composite, concatenating the issued backend calls in source order. -/
def GuildSettings.get (b : Backend) (gid : Nat) : GuildSettings × List ApiCall :=
  let (preferences, c1) := GuildPreference.get b gid
  let (levels, c2) := LevelSetting.get b gid
  let (welcome, c3) := WelcomeSetting.get b gid
  let (achievements, c4) := AchievementSetting.get b gid
  let (ai, c5) := AISetting.get b gid
  let (react_roles, c6) := ReactRoleSetting.get_all b gid
  let (rss_feeds, c7) := RssFeed.get_all b gid
  ({ id := some gid, preferences := preferences, react_roles := some react_roles,
     levels := levels, welcome := welcome, rss_feeds := rss_feeds,
     achievements := achievements, ai := ai },
   c1 ++ c2 ++ c3 ++ c4 ++ c5 ++ c6 ++ c7)

/-- GuildManager cache: guild id to composite settings (a Python dict). -/
abbrev GuildCache := Dict Nat GuildSettings

/-- GuildManager.get: return the cached value, or fetch, cache and return
the composite; the returned list records the backend calls issued. -/
def GuildManager.get (b : Backend) (st : GuildCache) (gid : Nat) :
    GuildSettings × GuildCache × List ApiCall :=
  match Dict.get st gid with
  | some g => (g, st, [])
  | none =>
      ((GuildSettings.get b gid).1, Dict.set st gid (GuildSettings.get b gid).1,
        (GuildSettings.get b gid).2)

/-- Partial refresh of one named field of a cached GuildSettings, mirroring
the if/elif chain of GuildManager.refresh; an unrecognized name changes
nothing. -/
def GuildManager.refreshField (b : Backend) (gid : Nat) (g : GuildSettings)
    (name : String) : GuildSettings :=
  if name = "preferences" then { g with preferences := (GuildPreference.get b gid).1 }
  else if name = "levels" then { g with levels := (LevelSetting.get b gid).1 }
  else if name = "welcome" then { g with welcome := (WelcomeSetting.get b gid).1 }
  else if name = "achievements" then
    { g with achievements := (AchievementSetting.get b gid).1 }
  else if name = "react_roles" then
    { g with react_roles := some (ReactRoleSetting.get_all b gid).1 }
  else if name = "rss" then { g with rss_feeds := (RssFeed.get_all b gid).1 }
  else if name = "ai" then { g with ai := (AISetting.get b gid).1 }
  else g

/-- GuildManager.refresh: with a falsy name or no cached entry, a full
re-fetch replaces the cache entry; otherwise only the named field of the
existing entry is replaced (the source mutates the cached object in
place, so the cache holds the updated composite). -/
def GuildManager.refresh (b : Backend) (st : GuildCache) (gid : Nat)
    (setting_name : Option String) : GuildSettings × GuildCache :=
  match setting_name, Dict.get st gid with
  | some name, some g =>
      if name = "" then
        ((GuildSettings.get b gid).1, Dict.set st gid (GuildSettings.get b gid).1)
      else
        (GuildManager.refreshField b gid g name,
          Dict.set st gid (GuildManager.refreshField b gid g name))
  | _, _ =>
      ((GuildSettings.get b gid).1, Dict.set st gid (GuildSettings.get b gid).1)

/-! ## User cache (plana.services.manager.UserManager, plana.models.user)

The per-user property bag is modelled at the record type the claims
exercise (the level record); other property kinds are elided. -/

/-- User level record (plana.models.levels.UserLevelData), the serialized
form stored in the user_data property bag. -/
structure UserLevelData where
  xp : Nat := 0
  level : Nat := 0
  messages_sent : Nat := 0
  deriving DecidableEq, Repr

/-- Serialized record stored in one property-bag slot; emptyDict is the
empty default slot created on first read. -/
inductive FieldVal where
  | levels (d : UserLevelData)
  | emptyDict
  deriving DecidableEq, Repr

/-- Property name under which a record is stored (the source reads it off
the class attribute of the record passed in). -/
def FieldVal.property : FieldVal → String
  | .levels _ => "levels"
  | .emptyDict => "user_data"

/-- User model (plana.models.user.User).  user_data is Optional in the
source, so the slot map sits under an Option. -/
structure User where
  id : Option Nat := none
  user_id : Nat
  guild_id : Option Nat := none
  user_data : Option (Dict String FieldVal) := some []
  deriving DecidableEq, Repr

/-- Truthiness of the Optional user_data dict: None and the empty dict are
both falsy in Python. -/
def userDataFalsy : Option (Dict String FieldVal) → Bool
  | none => true
  | some d => d.isEmpty

/-- Oracle for the user endpoints of the backend REST store; none models
the empty/falsy body returned for a missing entity or a request error. -/
structure UserBackend where
  userGet : Nat → Nat → Option User
  userCreate : Nat → Nat → Option User
  bulkPut : List User → Option Unit

/-- User.get: GET the user, and on a falsy body fall back to a server-side
create; if the create body is also falsy this returns None despite the
declared User return type. -/
def User.get (b : UserBackend) (guild_id user_id : Nat) : Option User :=
  match b.userGet guild_id user_id with
  | some u => some u
  | none => b.userCreate guild_id user_id

/-- State of the UserManager class: the (guild_id, user_id) cache dict,
whose stored values may be None exactly as in the source, and the dirty
key set. -/
structure UserManagerState where
  users : Dict (Nat × Nat) (Option User) := []
  dirty_users : List (Nat × Nat) := []
  deriving DecidableEq, Repr

/-- UserManager.mark_dirty. -/
def UserManager.mark_dirty (g u : Nat) (st : UserManagerState) : UserManagerState :=
  { st with dirty_users := setAdd st.dirty_users (g, u) }

/-- UserManager.mark_clean. -/
def UserManager.mark_clean (g u : Nat) (st : UserManagerState) : UserManagerState :=
  { st with dirty_users := setDiscard st.dirty_users (g, u) }

/-- UserManager.refresh: fetch from the backend, store the result (even a
None) in the cache, mark the key clean, and return the stored value. -/
def UserManager.refresh (b : UserBackend) (g u : Nat) (st : UserManagerState) :
    Option User × UserManagerState :=
  let v := User.get b g u
  let st1 := { st with users := Dict.set st.users (g, u) v }
  (v, UserManager.mark_clean g u st1)

/-- UserManager.get: the cached entry if the key is present (even when the
stored value is None), else refresh. -/
def UserManager.get (b : UserBackend) (g u : Nat) (st : UserManagerState) :
    Option User × UserManagerState :=
  match Dict.get st.users (g, u) with
  | some v => (v, st)
  | none => UserManager.refresh b g u st

/-- UserManager.get_dirty: the cached values of the dirty keys that are
present in the cache, in dirty-set order. -/
def UserManager.get_dirty (st : UserManagerState) : List (Option User) :=
  st.dirty_users.filterMap (fun k => Dict.get st.users k)

/-- UserManager.update_property: read (or fetch) the user, replace a falsy
user_data with an empty dict, write the serialized record into its slot,
and mark the key dirty.  Raises AttributeError when the cached entry for
the key is None. -/
def UserManager.update_property (b : UserBackend) (g u : Nat) (data : FieldVal)
    (st : UserManagerState) : Except PyErr UserManagerState :=
  let (uo, st1) := UserManager.get b g u st
  match uo with
  | none => .error .attributeError
  | some user =>
      let user1 :=
        if userDataFalsy user.user_data then { user with user_data := some [] }
        else user
      let user2 :=
        { user1 with
          user_data := some (Dict.set (user1.user_data.getD []) data.property data) }
      let st2 := { st1 with users := Dict.set st1.users (g, u) (some user2) }
      .ok (UserManager.mark_dirty g u st2)

/-- UserManager.get_property: read (or fetch) the user, create an empty
default slot when user_data has none for the property, and return the
slot value (validation into the typed record elided).  Raises
AttributeError when the cached entry is None, and TypeError when
user_data is None and the source would assign into it. -/
def UserManager.get_property (b : UserBackend) (g u : Nat) (prop : String)
    (st : UserManagerState) : Except PyErr (FieldVal × UserManagerState) :=
  let (uo, st1) := UserManager.get b g u st
  match uo with
  | none => .error .attributeError
  | some user =>
      match user.user_data with
      | none => .error .typeError
      | some d =>
          let needsSlot := d.isEmpty ∨ (Dict.get d prop).isNone
          let d1 := if needsSlot then Dict.set d prop .emptyDict else d
          let user2 := { user with user_data := some d1 }
          let st2 := { st1 with users := Dict.set st1.users (g, u) (some user2) }
          ((Dict.get d1 prop).getD .emptyDict, st2) |> .ok

/-- User.bulk_update serialization step: the source dumps every captured
entry before the HTTP request, raising AttributeError if the captured
list holds a None. -/
def User.bulk_update_dump (captured : List (Option User)) :
    Except PyErr (List User) :=
  if captured.any Option.isNone then .error .attributeError
  else .ok (captured.filterMap (fun x => x))

/-- UserManager.bulk_update on an already captured dirty list.  The single
await of the bulk PUT is the one suspension point of the flush; the
interleave argument is the effect of whatever other tasks run while the
request is in flight.  After the await the source marks every captured
user clean unconditionally, ignoring the response (make_request returns a
falsy dict rather than raising on failure). -/
def UserManager.bulk_update (b : UserBackend) (captured : List (Option User))
    (interleave : UserManagerState → UserManagerState) (st : UserManagerState) :
    Except PyErr (Option Unit × UserManagerState) :=
  match User.bulk_update_dump captured with
  | .error e => .error e
  | .ok users =>
      let response := b.bulkPut users
      let st1 := interleave st
      let st2 := users.foldl
        (fun s u =>
          match u.guild_id with
          | some g => UserManager.mark_clean g u.user_id s
          | none => s)
        st1
      .ok (response, st2)

/-- UserManager.update_dirty: capture the dirty users and bulk update them. -/
def UserManager.update_dirty (b : UserBackend)
    (interleave : UserManagerState → UserManagerState) (st : UserManagerState) :
    Except PyErr UserManagerState :=
  (UserManager.bulk_update b (UserManager.get_dirty st) interleave st).map (·.2)

/-! ## Guild write-back tracker (plana.services.manager.GuildDataTracker,
plana.models.guild.Guild) -/

/-- Live gateway guild object (the discord.Guild attributes the snapshot
reads; member/role/channel payloads reduced to their ids). -/
structure DiscordGuild where
  id : Nat
  name : String
  owner_id : Nat
  members : List Nat := []
  roles : List Nat := []
  text_channels : List Nat := []
  deriving DecidableEq, Repr

/-- Structural guild snapshot (plana.models.guild.Guild). -/
structure GuildData where
  id : Nat
  name : String
  owner_id : Nat
  users : List Nat := []
  roles : List Nat := []
  channels : List Nat := []
  deriving DecidableEq, Repr

/-- Dynamically typed Python value passed to Guild.refresh: its annotated
parameter type is the live gateway guild object, but one caller passes a
bare integer id. -/
inductive PyVal where
  | int (n : Nat)
  | guild (g : DiscordGuild)
  deriving DecidableEq, Repr

/-- Guild.from_discord_guild: builds the snapshot from the attributes of
the live guild object; attribute access on an integer raises
AttributeError. -/
def Guild.from_discord_guild : PyVal → Except PyErr GuildData
  | .guild g =>
      .ok { id := g.id, name := g.name, owner_id := g.owner_id,
            users := g.members, roles := g.roles, channels := g.text_channels }
  | .int _ => .error .attributeError

/-- Oracle for the guild data endpoints; none models a falsy body. -/
structure GuildDataBackend where
  dataPut : Nat → GuildData → Option GuildData
  dataPost : Nat → GuildData → Option GuildData

/-- Guild.refresh: derive the snapshot from the passed value, PUT it, and
on a falsy response POST-create it; returns the issued backend calls. -/
def Guild.refresh (b : GuildDataBackend) (guild : PyVal) :
    Except PyErr (List ApiCall) := do
  let gd ← Guild.from_discord_guild guild
  match b.dataPut gd.id gd with
  | some _ => .ok [⟨"PUT", guildUrl gd.id "data"⟩]
  | none =>
      let _ := b.dataPost gd.id gd
      .ok [⟨"PUT", guildUrl gd.id "data"⟩, ⟨"POST", guildUrl gd.id "data"⟩]

/-- Loop body of GuildDataTracker.update_dirty: the source iterates the
dirty guild ids and awaits Guild.refresh on the raw id value; an
exception propagates out of the loop. -/
def GuildDataTracker.run_refresh (b : GuildDataBackend) :
    List Nat → Except PyErr (List ApiCall)
  | [] => .ok []
  | gid :: rest => do
      let calls ← Guild.refresh b (.int gid)
      let more ← GuildDataTracker.run_refresh b rest
      .ok (calls ++ more)

/-- GuildDataTracker.update_dirty: run the refresh loop over the dirty set
and, only if the whole loop returns, clean_all clears every dirty flag at
once; the result is the dirty set afterwards together with the issued
calls (on an exception the dirty set is left as it was). -/
def GuildDataTracker.update_dirty (b : GuildDataBackend) (dirty : List Nat) :
    Except PyErr (List Nat × List ApiCall) :=
  match GuildDataTracker.run_refresh b dirty with
  | .error e => .error e
  | .ok calls => .ok ([], calls)

/-! ## Invalidation bus (plana.services.sub.RedisEventSubscriber) and the
gateway cog handlers (plana.cogs.gateway.PlanaGateway) -/

/-- Event kinds of the broker envelope (plana.services.sub.PlanaEvents). -/
inductive PlanaEvents where
  | MESSAGE_CREATE
  | MESSAGE_UPDATE
  | MESSAGE_DELETE
  | COMMAND_REGISTER
  | COMMAND_UNREGISTER
  | GUILD_CONFIG_REFRESH
  deriving DecidableEq, Repr

/-- Payload of a guild-config-refresh envelope
(plana.services.sub.GuildConfigEventData). -/
structure GuildConfigEventData where
  name : String
  deriving DecidableEq, Repr

/-- Message record carried by message lifecycle envelopes
(plana.models.message.Message; rendering fields elided). -/
structure Message where
  id : Option Nat := none
  name : Option String := none
  message_id : Option Nat := none
  guild_id : Option Nat := none
  channel_id : Option Nat := none
  content : Option String := none
  deriving DecidableEq, Repr

/-- Kind-specific payload of an envelope (Message or GuildConfigEventData). -/
inductive EventData where
  | message (m : Message)
  | config (c : GuildConfigEventData)
  deriving DecidableEq, Repr

/-- Decoded broker envelope (plana.services.sub.EventPayload; the
timestamp is never read by a handler and is elided). -/
structure EventPayload where
  event : PlanaEvents
  guild_id : Nat
  data : Option EventData := none
  deriving DecidableEq, Repr

/-- Raw bytes of one broker message: either a JSON body that validates
into an envelope or one that fails validation. -/
inductive RawData where
  | valid (e : EventPayload)
  | malformed
  deriving DecidableEq, Repr

/-- Raw broker message as produced by the pub/sub client. -/
structure RawEvent where
  type : String
  data : RawData
  deriving DecidableEq, Repr

/-- EventPayload.model_validate_json on the raw body. -/
def decodePayload : RawData → Option EventPayload
  | .valid e => some e
  | .malformed => none

/-- Registered handler table of the subscriber; a handler may raise when
invoked (the Bool result, unread by the dispatch loop, stands for that). -/
abbrev HandlerTable := Dict PlanaEvents (EventPayload → Bool)

/-- RedisEventSubscriber.register_handler: one callback per kind, later
registration replacing the prior one. -/
def RedisEventSubscriber.register_handler (t : HandlerTable) (e : PlanaEvents)
    (h : EventPayload → Bool) : HandlerTable :=
  Dict.set t e h

/-- RedisEventSubscriber handle_event: decode the envelope, look up the
handler for its kind, and invoke it; every failure (decode or handler) is
caught inside this function.  The result lists the envelopes for which a
registered handler was invoked. -/
def RedisEventSubscriber.handle_event (t : HandlerTable) (ev : RawEvent) :
    List EventPayload :=
  match decodePayload ev.data with
  | none => []
  | some p =>
      match Dict.get t p.event with
      | none => []
      | some _ => [p]

/-- RedisEventSubscriber.start_listening: process each delivered broker
message in order, dispatching only message and pmessage frames; the
per-message exception handling of handle_event keeps the loop alive.  The
result is the dispatch log over the delivered sequence. -/
def RedisEventSubscriber.start_listening (t : HandlerTable) :
    List RawEvent → List EventPayload
  | [] => []
  | ev :: rest =>
      (if ev.type = "message" ∨ ev.type = "pmessage" then
        RedisEventSubscriber.handle_event t ev
      else []) ++ RedisEventSubscriber.start_listening t rest

/-- Action issued against the chat gateway by the command reconciliation
path. -/
inductive CmdAction where
  | add (guild_id : Nat) (name : String)
  | remove (guild_id : Nat) (name : String)
  deriving DecidableEq, Repr

/-- View of the chat-gateway client used by the reconciliation handler:
which guild ids resolve, and the currently registered command names per
guild. -/
structure GatewayCore where
  guildIds : List Nat
  fetchCommands : Nat → List String

/-- PlanaGateway handle_command_action: guard falsy arguments, resolve the
guild, fetch its registered commands, find the named command, and then
return early when it is absent; only afterwards come the add branch
(requiring the command to be absent, hence unreachable) and the remove
branch. -/
def PlanaGateway.handle_command_action (core : GatewayCore) (guild_id : Nat)
    (command_name : String) (enable : Bool) : List CmdAction :=
  if guild_id = 0 ∨ command_name = "" then []
  else if ¬ core.guildIds.contains guild_id then []
  else
    let commands := core.fetchCommands guild_id
    let cmd := commands.find? (fun c => decide (c = command_name))
    match cmd with
    | none => []
    | some _ =>
        if enable && cmd.isNone then [.add guild_id command_name]
        else if !enable && cmd.isSome then [.remove guild_id command_name]
        else []

/-- PlanaGateway.handle_guild_config_refresh: resolve the guild, refresh
the named slice of the guild cache, and for a command-bearing sub-config
run the reconciliation with the enabled state of the refreshed slice (a
None slice raises on the attribute access, caught by the handler, so no
command action is issued). -/
def PlanaGateway.handle_guild_config_refresh (b : Backend) (core : GatewayCore)
    (st : GuildCache) (guild_id : Nat) (data : Option GuildConfigEventData) :
    GuildCache × List CmdAction :=
  if ¬ core.guildIds.contains guild_id then (st, [])
  else
    match data with
    | none => (st, [])
    | some d =>
        let (gs, st2) := GuildManager.refresh b st guild_id (some d.name)
        if d.name = "levels" then
          match gs.levels with
          | none => (st2, [])
          | some l =>
              (st2, PlanaGateway.handle_command_action core guild_id "levels"
                (truthy l.enabled))
        else if d.name = "achievements" then
          match gs.achievements with
          | none => (st2, [])
          | some a =>
              (st2, PlanaGateway.handle_command_action core guild_id "achievements"
                (truthy a.enabled))
        else if d.name = "rss" then
          (st2, PlanaGateway.handle_command_action core guild_id "rss"
            (decide (gs.rss_feeds.length > 0)))
        else (st2, [])

/-! ## Message lifecycle handling (plana.cogs.gateway, plana.models.message) -/

/-- Gateway-side guild view for the message handlers: the channels the
guild object resolves. -/
structure CoreGuild where
  id : Nat
  channels : List Nat
  deriving DecidableEq, Repr

/-- View of the chat-gateway client used by the message handlers. -/
structure Core where
  guilds : List CoreGuild
  channels : List Nat
  messages : List (Nat × Nat)
  deriving DecidableEq, Repr

/-- core.get_guild. -/
def Core.get_guild (c : Core) (gid : Nat) : Option CoreGuild :=
  c.guilds.find? (fun g => decide (g.id = gid))

/-- core.get_channel, reduced to the channel id it resolves. -/
def Core.get_channel (c : Core) (cid : Nat) : Option Nat :=
  if c.channels.contains cid then some cid else none

/-- channel.fetch_message succeeds when the remote message exists. -/
def Core.fetch_message (c : Core) (cid mid : Nat) : Bool :=
  c.messages.contains (cid, mid)

/-- Message _exists: the record names a truthy channel and guild, the
guild resolves in the gateway view, and the channel resolves inside that
guild. -/
def Message.target_exists (core : Core) (m : Message) : Bool :=
  match m.channel_id, m.guild_id with
  | some cid, some gid =>
      if cid = 0 ∨ gid = 0 then false
      else
        match Core.get_guild core gid with
        | none => false
        | some g => g.channels.contains cid
  | _, _ => false

/-- Actions issued against the chat gateway by the message handlers. -/
inductive GwAction where
  | send (channel_id : Nat)
  | saveMessage (id : Nat)
  | edit (channel_id : Nat) (message_id : Nat)
  | deleteMsg (channel_id : Nat) (message_id : Nat)
  deriving DecidableEq, Repr

/-- Message.model_validate on the envelope payload: a config payload still
validates (its name field maps onto the optional name field of Message,
everything else defaulting to None). -/
def coerceToMessage : EventData → Message
  | .message m => m
  | .config c => { name := some c.name }

/-- CREATE branch of the message handler: message.send checks target
existence and resolves the channel; the save of the remote id follows a
successful send (a raised lookup failure is caught by the handler and
yields no action). -/
def PlanaGateway.message_create_branch (core : Core) (m : Message) : List GwAction :=
  if ¬ Message.target_exists core m then []
  else
    match m.channel_id.bind (Core.get_channel core) with
    | none => []
    | some cid =>
        [.send cid] ++
          (match m.id with
          | some i => [.saveMessage i]
          | none => [])

/-- UPDATE branch: message.edit checks target existence, a truthy remote
message id, the channel lookup and the remote fetch before editing. -/
def PlanaGateway.message_update_branch (core : Core) (m : Message) : List GwAction :=
  if ¬ Message.target_exists core m then []
  else
    match m.message_id with
    | none => []
    | some mid =>
        if mid = 0 then []
        else
          match m.channel_id.bind (Core.get_channel core) with
          | none => []
          | some cid =>
              if Core.fetch_message core cid mid then [.edit cid mid]
              else []

/-- DELETE branch: the handler first checks target existence and a truthy
remote message id, then resolves the channel, fetches the remote message
and deletes it; every raised lookup failure is caught and yields no
action. -/
def PlanaGateway.message_delete_branch (core : Core) (m : Message) : List GwAction :=
  if ¬ Message.target_exists core m then []
  else
    match m.message_id with
    | none => []
    | some mid =>
        if mid = 0 then []
        else
          match m.channel_id.bind (Core.get_channel core) with
          | none => []
          | some cid =>
              if Core.fetch_message core cid mid then [.deleteMsg cid mid]
              else []

/-- PlanaGateway.handle_message_action: guard a missing payload and an
unknown guild, validate the payload into a message record, then branch on
the event kind. -/
def PlanaGateway.handle_message_action (core : Core) (ev : EventPayload) :
    List GwAction :=
  match ev.data with
  | none => []
  | some d =>
      if (core.guilds.map (fun g => g.id)).contains ev.guild_id then
        let m := coerceToMessage d
        match ev.event with
        | .MESSAGE_CREATE => PlanaGateway.message_create_branch core m
        | .MESSAGE_UPDATE => PlanaGateway.message_update_branch core m
        | .MESSAGE_DELETE => PlanaGateway.message_delete_branch core m
        | _ => []
      else []

/-! ## Concrete fixtures used by witnesses and counterexamples -/

/-- Backend for a guild with no record anywhere: every GET is falsy and
every create succeeds, returning the entity the server makes from the
empty body (only the id set, every other field at its documented
default). -/
def freshBackend : Backend where
  prefGet _ := none
  prefCreate gid := some { id := some gid }
  levelsGet _ := none
  levelsCreate gid := some { id := some gid }
  welcomeGet _ := none
  welcomeCreate gid := some { id := some gid }
  achGet _ := none
  achCreate gid := some { id := some gid }
  aiGet _ := none
  aiCreate gid := some { id := some gid }
  reactRolesGetAll _ := none
  rssGetAll _ := none

/-! ## Theorems -/

/-- C8: GuildManager.get is idempotent after the first call: the second
get returns the same GuildSettings, issues no backend calls, and leaves
the cache unchanged, because the first call stored the composite. -/
theorem GuildManager.get_idempotent (b : Backend) (st0 : GuildCache) (gid : Nat) :
    (GuildManager.get b (GuildManager.get b st0 gid).2.1 gid).1
        = (GuildManager.get b st0 gid).1 ∧
    (GuildManager.get b (GuildManager.get b st0 gid).2.1 gid).2.2 = [] ∧
    (GuildManager.get b (GuildManager.get b st0 gid).2.1 gid).2.1
        = (GuildManager.get b st0 gid).2.1 := by
  cases h : Dict.get st0 gid with
  | some g => simp [GuildManager.get, h]
  | none => simp [GuildManager.get, h, Dict.get_set]

/-- C5: with an existing cache entry and a sub-config name given,
GuildManager.refresh replaces only the named field: every sibling field
of the cached GuildSettings is exactly what it was before the call. -/
theorem GuildManager.refresh_partial_frame (b : Backend) (st : GuildCache)
    (gid : Nat) (g : GuildSettings) (name : String)
    (hcache : Dict.get st gid = some g) (hname : name ≠ "") :
    (GuildManager.refresh b st gid (some name)).1.id = g.id ∧
    (name ≠ "preferences" →
      (GuildManager.refresh b st gid (some name)).1.preferences = g.preferences) ∧
    (name ≠ "levels" →
      (GuildManager.refresh b st gid (some name)).1.levels = g.levels) ∧
    (name ≠ "welcome" →
      (GuildManager.refresh b st gid (some name)).1.welcome = g.welcome) ∧
    (name ≠ "achievements" →
      (GuildManager.refresh b st gid (some name)).1.achievements = g.achievements) ∧
    (name ≠ "react_roles" →
      (GuildManager.refresh b st gid (some name)).1.react_roles = g.react_roles) ∧
    (name ≠ "rss" →
      (GuildManager.refresh b st gid (some name)).1.rss_feeds = g.rss_feeds) ∧
    (name ≠ "ai" →
      (GuildManager.refresh b st gid (some name)).1.ai = g.ai) := by
  have hr : (GuildManager.refresh b st gid (some name)).1
      = GuildManager.refreshField b gid g name := by
    simp [GuildManager.refresh, hcache, hname]
  rw [hr]
  unfold GuildManager.refreshField
  split_ifs <;> simp_all

/-- Witness for C5 at a concrete cached entry and the name levels. -/
theorem GuildManager.refresh_partial_frame_witness :
    (GuildManager.refresh freshBackend [(1, { id := some 1 })] 1 (some "levels")).1.id
        = (({ id := some 1 } : GuildSettings)).id ∧
    ("levels" ≠ "preferences" →
      (GuildManager.refresh freshBackend [(1, { id := some 1 })] 1 (some "levels")).1.preferences
        = (({ id := some 1 } : GuildSettings)).preferences) ∧
    ("levels" ≠ "levels" →
      (GuildManager.refresh freshBackend [(1, { id := some 1 })] 1 (some "levels")).1.levels
        = (({ id := some 1 } : GuildSettings)).levels) ∧
    ("levels" ≠ "welcome" →
      (GuildManager.refresh freshBackend [(1, { id := some 1 })] 1 (some "levels")).1.welcome
        = (({ id := some 1 } : GuildSettings)).welcome) ∧
    ("levels" ≠ "achievements" →
      (GuildManager.refresh freshBackend [(1, { id := some 1 })] 1 (some "levels")).1.achievements
        = (({ id := some 1 } : GuildSettings)).achievements) ∧
    ("levels" ≠ "react_roles" →
      (GuildManager.refresh freshBackend [(1, { id := some 1 })] 1 (some "levels")).1.react_roles
        = (({ id := some 1 } : GuildSettings)).react_roles) ∧
    ("levels" ≠ "rss" →
      (GuildManager.refresh freshBackend [(1, { id := some 1 })] 1 (some "levels")).1.rss_feeds
        = (({ id := some 1 } : GuildSettings)).rss_feeds) ∧
    ("levels" ≠ "ai" →
      (GuildManager.refresh freshBackend [(1, { id := some 1 })] 1 (some "levels")).1.ai
        = (({ id := some 1 } : GuildSettings)).ai) :=
  GuildManager.refresh_partial_frame freshBackend [(1, { id := some 1 })] 1
    { id := some 1 } "levels" rfl (by decide)

/-- C4 counterexample: on a cold cache and a guild with no backend record,
GuildManager.get 42 issues 12 backend calls, not 6: there are 7
sub-config fetches, and each of the 5 singular ones falls back to a
create. -/
theorem GuildManager.get_cold_call_count :
    (GuildManager.get freshBackend [] 42).2.2.length = 12 ∧
    (GuildManager.get freshBackend [] 42).2.2.length ≠ 6 := by
  exact ⟨rfl, by decide⟩

/-- C4 amended: the cold-cache get on guild 42 issues exactly the 12
listed backend calls (a GET per sub-config endpoint plus a POST create
fallback for each singular sub-config) and returns the documented
defaults: levels disabled, ai enabled, no react roles and no feeds. -/
theorem GuildManager.get_cold_calls_and_defaults :
    (GuildManager.get freshBackend [] 42).2.2 =
      [⟨"GET", "/guilds/42/preferences"⟩, ⟨"POST", "/guilds/42/preferences"⟩,
       ⟨"GET", "/guilds/42/levels"⟩, ⟨"POST", "/guilds/42/levels"⟩,
       ⟨"GET", "/guilds/42/welcome"⟩, ⟨"POST", "/guilds/42/welcome"⟩,
       ⟨"GET", "/guilds/42/achievements"⟩, ⟨"POST", "/guilds/42/achievements"⟩,
       ⟨"GET", "/guilds/42/ai"⟩, ⟨"POST", "/guilds/42/ai"⟩,
       ⟨"GET", "/guilds/42/react-roles"⟩, ⟨"GET", "/guilds/42/rss"⟩] ∧
    (GuildManager.get freshBackend [] 42).1.id = some 42 ∧
    ((GuildManager.get freshBackend [] 42).1.levels.map (fun l => l.enabled))
        = some (some false) ∧
    ((GuildManager.get freshBackend [] 42).1.ai.map (fun a => a.enabled))
        = some (some true) ∧
    (GuildManager.get freshBackend [] 42).1.react_roles = some [] ∧
    (GuildManager.get freshBackend [] 42).1.rss_feeds = [] := by
  exact ⟨rfl, rfl, rfl, rfl, rfl, rfl⟩

/-- User backend whose bulk PUT succeeds and has no per-user records. -/
def okUserBackend : UserBackend where
  userGet _ _ := none
  userCreate _ _ := none
  bulkPut _ := some ()

/-- User backend whose every request errors, so make_request yields the
falsy empty body everywhere. -/
def downUserBackend : UserBackend where
  userGet _ _ := none
  userCreate _ _ := none
  bulkPut _ := none

/-- Cached user for guild 1, user 7, before any property write. -/
def u17 : User := { user_id := 7, guild_id := some 1 }

/-- Cached user for guild 1, user 7, after the concurrent level write. -/
def u17levels : User :=
  { user_id := 7, guild_id := some 1,
    user_data := some [("levels", .levels { xp := 120 })] }

/-- UserManager state at the start of the flush: (1, 7) cached and dirty. -/
def flushState : UserManagerState :=
  { users := [((1, 7), some u17)], dirty_users := [(1, 7)] }

/-- Concurrent task interleaved at the bulk-write suspension point: an
update_property call for (1, 7) writing the level record. -/
def reMark (st : UserManagerState) : UserManagerState :=
  match UserManager.update_property okUserBackend 1 7 (.levels { xp := 120 }) st with
  | .ok s => s
  | .error _ => st

/-- C1: a key re-marked dirty by an update_property call interleaved with
the in-flight bulk write is nonetheless removed from the dirty set: after
the await, bulk_update marks every captured key clean unconditionally, so
the flush of flushState with the concurrent reMark ends with an empty
dirty set although (1, 7) was dirty during the write. -/
theorem update_dirty_drops_concurrent_mark :
    ((1, 7) ∈ (reMark flushState).dirty_users) ∧
    UserManager.update_dirty okUserBackend reMark flushState =
      .ok { users := [((1, 7), some u17levels)], dirty_users := [] } := by
  exact ⟨by decide, rfl⟩

/-- C2: when the bulk PUT fails, make_request swallows the error into a
falsy body, bulk_update ignores the response and still marks every
captured key clean: update_dirty returns without an exception but the
dirty set is emptied instead of being left as it was. -/
theorem update_dirty_clears_on_failed_write :
    UserManager.update_dirty downUserBackend (fun st => st) flushState =
      .ok { users := flushState.users, dirty_users := [] } ∧
    flushState.dirty_users ≠ [] := by
  exact ⟨rfl, by decide⟩

/-- C10: with the backend unreachable (every request yields the falsy
body), User.get returns None, UserManager.refresh caches that None under
(g, u) and returns it, and a later get_property call on the same key
fails with AttributeError on the cached None entry. -/
theorem refresh_caches_none (g u : Nat) (st : UserManagerState) :
    User.get downUserBackend g u = none ∧
    (UserManager.refresh downUserBackend g u st).1 = none ∧
    Dict.get (UserManager.refresh downUserBackend g u st).2.users (g, u)
        = some none ∧
    UserManager.get_property downUserBackend g u "levels"
        (UserManager.refresh downUserBackend g u st).2 = .error .attributeError := by
  have hstore : Dict.get (UserManager.refresh downUserBackend g u st).2.users (g, u)
      = some none := by
    simp [UserManager.refresh, UserManager.mark_clean, User.get, downUserBackend,
      Dict.get_set]
  refine ⟨rfl, rfl, hstore, ?_⟩
  simp [UserManager.get_property, UserManager.get, hstore]

/-- C7: the write-back flush loop passes the raw integer guild id to
Guild.refresh, whose snapshot derivation reads attributes of the live
gateway guild object; the attribute access on the integer raises, the
exception propagates out of update_dirty before clean_all runs, and no
backend call is issued for any dirty set containing at least one guild. -/
theorem guild_tracker_update_dirty_raises (b : GuildDataBackend) (g : Nat)
    (rest : List Nat) :
    GuildDataTracker.update_dirty b (g :: rest) = .error .attributeError := rfl

/-- Backend on which guild 1 has a levels record with the system enabled. -/
def levelsOnBackend : Backend :=
  { freshBackend with levelsGet := fun gid => some { id := some gid, enabled := some true } }

/-- Gateway view in which guild 1 resolves but has no registered commands. -/
def gwCoreUnregistered : GatewayCore :=
  { guildIds := [1], fetchCommands := fun _ => [] }

/-- Guild cache holding an entry for guild 1. -/
def cachedGuildOne : GuildCache := [(1, { id := some 1 })]

/-- C3: processing a guild-config-refresh for levels on a guild where the
refreshed sub-config enables the command but the command is not yet
registered issues zero add calls: handle_command_action returns as soon
as the command is absent from the fetched list, making its add branch
unreachable, so the handler never converges an enabled-but-unregistered
command. -/
theorem config_refresh_enabled_unregistered_no_add :
    (PlanaGateway.handle_guild_config_refresh levelsOnBackend gwCoreUnregistered
        cachedGuildOne 1 (some { name := "levels" })).2 = [] ∧
    ((GuildManager.refresh levelsOnBackend cachedGuildOne 1 (some "levels")).1.levels.map
        (fun l => truthy l.enabled)) = some true ∧
    (gwCoreUnregistered.fetchCommands 1).contains "levels" = false ∧
    PlanaGateway.handle_command_action gwCoreUnregistered 1 "levels" true = [] := by
  exact ⟨rfl, rfl, rfl, rfl⟩

/-- C6: the dispatch loop is isolated per message: it distributes over
concatenation of the delivered sequence (no message can terminate it),
and a malformed envelope followed by a valid envelope whose kind has a
registered handler invokes that handler exactly once, for the valid
envelope alone. -/
theorem dispatch_isolation (t : HandlerTable) (bad : RawEvent) (e : EventPayload)
    (xs ys : List RawEvent)
    (hbt : bad.type = "message") (hbad : decodePayload bad.data = none)
    (_hkind : e.event = PlanaEvents.GUILD_CONFIG_REFRESH)
    (hreg : (Dict.get t e.event).isSome = true) :
    RedisEventSubscriber.start_listening t
        [bad, { type := "message", data := .valid e }] = [e] ∧
    RedisEventSubscriber.start_listening t (xs ++ ys)
        = RedisEventSubscriber.start_listening t xs
          ++ RedisEventSubscriber.start_listening t ys := by
  constructor
  · cases hbd : bad.data with
    | valid e2 => rw [hbd] at hbad; simp [decodePayload] at hbad
    | malformed =>
        cases hh : Dict.get t e.event with
        | none => rw [hh] at hreg; simp at hreg
        | some f =>
            simp [RedisEventSubscriber.start_listening,
              RedisEventSubscriber.handle_event, hbt, hbd, decodePayload, hh]
  · induction xs with
    | nil => simp [RedisEventSubscriber.start_listening]
    | cons x xs ih =>
        simp [RedisEventSubscriber.start_listening, ih, List.append_assoc]

/-- Handler table with only the guild-config-refresh handler registered. -/
def refreshHandlerTable : HandlerTable :=
  [(PlanaEvents.GUILD_CONFIG_REFRESH, fun _ => false)]

/-- Valid guild-config-refresh envelope used by the dispatch witness. -/
def validRefreshEnvelope : EventPayload :=
  { event := .GUILD_CONFIG_REFRESH, guild_id := 5,
    data := some (.config { name := "levels" }) }

/-- Malformed broker frame used by the dispatch witness. -/
def malformedFrame : RawEvent := { type := "message", data := .malformed }

/-- Witness for C6 on the concrete two-message sequence. -/
theorem dispatch_isolation_witness :
    RedisEventSubscriber.start_listening refreshHandlerTable
        [malformedFrame, { type := "message", data := .valid validRefreshEnvelope }]
        = [validRefreshEnvelope] ∧
    RedisEventSubscriber.start_listening refreshHandlerTable
        ([malformedFrame] ++ [{ type := "message", data := .valid validRefreshEnvelope }])
        = RedisEventSubscriber.start_listening refreshHandlerTable [malformedFrame]
          ++ RedisEventSubscriber.start_listening refreshHandlerTable
              [{ type := "message", data := .valid validRefreshEnvelope }] :=
  dispatch_isolation refreshHandlerTable malformedFrame validRefreshEnvelope
    [malformedFrame] [{ type := "message", data := .valid validRefreshEnvelope }]
    rfl rfl rfl rfl

/-- Helper for C9: any delete action produced by the delete branch implies
the target-existence check passed and the record carried that truthy
remote message id. -/
theorem message_delete_branch_guard (core : Core) (m : Message) (cid mid : Nat)
    (h : GwAction.deleteMsg cid mid ∈ PlanaGateway.message_delete_branch core m) :
    Message.target_exists core m = true ∧ m.message_id = some mid ∧ mid ≠ 0 := by
  unfold PlanaGateway.message_delete_branch at h
  by_cases hex : Message.target_exists core m
  · rw [if_neg (by simp [hex])] at h
    cases hmid : m.message_id with
    | none => simp only [hmid] at h; simp at h
    | some mid2 =>
        simp only [hmid] at h
        by_cases hz : mid2 = 0
        · simp [hz] at h
        · rw [if_neg hz] at h
          cases hch : m.channel_id.bind (Core.get_channel core) with
          | none => simp only [hch] at h; simp at h
          | some cid2 =>
              simp only [hch] at h
              by_cases hf : Core.fetch_message core cid2 mid2
              · rw [if_pos hf] at h
                simp at h
                obtain ⟨h1, h2⟩ := h
                subst h1
                subst h2
                exact ⟨hex, rfl, hz⟩
              · rw [if_neg hf] at h; simp at h
  · simp [hex] at h

/-- C9: a message-delete event leads to a gateway delete only when the
local record's target guild and channel both resolve in the gateway view
(the target-existence check) and the record carries a truthy remote
message id; when the guild or channel lookup fails no delete is issued. -/
theorem message_delete_guarded (core : Core) (gid : Nat) (m : Message)
    (cid mid : Nat)
    (hdel : GwAction.deleteMsg cid mid ∈ PlanaGateway.handle_message_action core
      { event := .MESSAGE_DELETE, guild_id := gid, data := some (.message m) }) :
    Message.target_exists core m = true ∧ m.message_id = some mid ∧ mid ≠ 0 := by
  have hred : PlanaGateway.handle_message_action core
      { event := .MESSAGE_DELETE, guild_id := gid, data := some (.message m) }
      = if (core.guilds.map (fun g => g.id)).contains gid then
          PlanaGateway.message_delete_branch core m
        else [] := rfl
  rw [hred] at hdel
  by_cases hg : (core.guilds.map (fun g => g.id)).contains gid = true
  · rw [if_pos hg] at hdel
    exact message_delete_branch_guard core m cid mid hdel
  · rw [if_neg hg] at hdel
    simp at hdel

/-- Gateway view for the C9 witness: guild 1 with channel 10, channel 10
resolvable, and remote message 99 fetchable in channel 10. -/
def deleteCore : Core :=
  { guilds := [{ id := 1, channels := [10] }], channels := [10], messages := [(10, 99)] }

/-- Local record for the C9 witness. -/
def deleteRecord : Message :=
  { id := some 3, message_id := some 99, guild_id := some 1, channel_id := some 10 }

/-- Witness for C9 at a concrete event on which the delete is issued. -/
theorem message_delete_guarded_witness :
    Message.target_exists deleteCore deleteRecord = true ∧
    deleteRecord.message_id = some 99 ∧ (99 : Nat) ≠ 0 :=
  message_delete_guarded deleteCore 1 deleteRecord 10 99 (by decide)

end Plana
